import Mathlib

/-!
Verification development for the rca server core.

This file gives a shallow embedding, in Lean, of the two core subsystems of
the repository and proves the specified properties about them:

* the execution sandbox `run_script` (server/src/executor/runner.py), and
* the chat agent `LangChatAgent` (server/src/agent/langchat_agent.py):
  provider resolution in `__init__`, the `chat` method with its per-session
  history discipline, and the exception-reclassification handlers.

Effects are made explicit: the session dictionary becomes an association
list threaded through `chat`; the child process launched by the runner
becomes a `SubprocessOutcome` parameter describing what `subprocess.run`
did; Python exceptions become `Except` values.  Filesystem behaviour of the
runner is reduced to the one bit the spec talks about: whether the
temporary script file still exists when `run_script` is done (the
`finally` block's `os.remove` is modelled as succeeding; its best-effort
`except OSError: pass` is outside the embedding).
-/

namespace Rca

/-- Model of Python str.strip on the underlying character list: drop
whitespace from both ends. -/
def stripChars (l : List Char) : List Char :=
  ((l.dropWhile Char.isWhitespace).reverse.dropWhile Char.isWhitespace).reverse

/-- Model of Python str.strip. -/
def pyStrip (s : String) : String :=
  String.mk (stripChars s.data)

/-- Model of Python str.lower (character-wise lowering). -/
def pyLower (s : String) : String :=
  String.mk (s.data.map Char.toLower)

/-! ## Execution sandbox: server/src/executor/runner.py -/

/-- Exceptions that `subprocess.run` can raise in `run_script`:
`subprocess.TimeoutExpired` on deadline exceedance, `FileNotFoundError`
when the executable/interpreter is missing, and anything else. -/
inductive RunExc where
  | timeoutExpired : RunExc
  | fileNotFound : String → RunExc
  | otherRunExc : String → RunExc
deriving DecidableEq, Repr

/-- What the `subprocess.run` call did: either the child process completed
with a return code and captured stdout/stderr (each possibly `None`), or
the call raised an exception. -/
inductive SubprocessOutcome where
  | completed : Int → Option String → Option String → SubprocessOutcome
  | raised : RunExc → SubprocessOutcome
deriving DecidableEq, Repr

deriving instance DecidableEq for Except

/-- The observable outcome of a `run_script` call: the value returned (or
the exception propagated, as `Except.error`), and whether the temporary
script file still exists afterwards. -/
structure RunScriptResult where
  result : Except RunExc String
  tmpExists : Bool
deriving DecidableEq, Repr

/-- Embedding of `run_script` (runner.py lines 14-60).  `tmp_path` is the
name of the temporary file created for the script (non-empty once
`tempfile.NamedTemporaryFile` has succeeded); `proc` is what the
`subprocess.run` call did.  The `try` body computes the textual result per
the stdout/stderr policy; `except subprocess.TimeoutExpired` converts a
timeout into a sentinel string; any other exception propagates
(`Except.error`).  The `finally` block removes the temporary file whenever
`tmp_path` is non-empty and the file exists, on every path. -/
def run_script (tmp_path : String) (proc : SubprocessOutcome) : RunScriptResult :=
  let body : Except RunExc String :=
    match proc with
    | SubprocessOutcome.completed returncode out err =>
      -- stdout = proc.stdout or ""; stderr = proc.stderr or ""
      let stdout := out.getD ""
      let stderr := err.getD ""
      if returncode ≠ 0 ∧ stdout = "" then
        -- if failed and no stdout, return stderr for visibility
        Except.ok (pyStrip stderr)
      else
        -- otherwise, prefer stdout and append stderr if useful
        let output := pyStrip stdout
        if pyStrip stderr ≠ "" then
          Except.ok (if output ≠ "" then output ++ "\n[stderr]\n" ++ pyStrip stderr
                     else pyStrip stderr)
        else
          Except.ok output
    | SubprocessOutcome.raised RunExc.timeoutExpired =>
      Except.ok "[timeout] Script execution exceeded the configured timeout."
    | SubprocessOutcome.raised e =>
      Except.error e
  { result := body
    tmpExists := if tmp_path ≠ "" then false else true }

/-! ## Basic string facts used below -/

theorem string_data_append (a b : String) : (a ++ b).data = a.data ++ b.data := by
  cases a
  cases b
  rfl

theorem string_append_ne_empty_left (a b : String) (h : a.data ≠ []) : a ++ b ≠ "" := by
  intro he
  have hd : a.data ++ b.data = ([] : List Char) := by
    have h1 := congrArg String.data he
    rwa [string_data_append] at h1
  exact h (List.append_eq_nil.mp hd).1

theorem pyStrip_empty : pyStrip "" = "" := rfl

theorem pyStrip_eq_empty_of_eq_empty (s : String) (h : s = "") : pyStrip s = "" := by
  rw [h]
  rfl

/-! ## Claims C2, C3, C4 about the sandbox -/

/-- C2: for every source text and timeout, after `run_script` is done —
whether the child exited 0, exited non-zero, timed out, or an exception
occurred — the temporary file created for the script no longer exists on
disk; the `finally` cleanup runs on every exit path. -/
theorem c2_tmpfile_always_removed (tmp_path : String) (proc : SubprocessOutcome)
    (h : tmp_path ≠ "") :
    (run_script tmp_path proc).tmpExists = false := by
  simp [run_script, h]

theorem c2_tmpfile_always_removed_witness :
    ("/tmp/rca.py" ≠ "") ∧
      (run_script "/tmp/rca.py"
        (SubprocessOutcome.raised RunExc.timeoutExpired)).tmpExists = false :=
  ⟨by decide, c2_tmpfile_always_removed "/tmp/rca.py"
    (SubprocessOutcome.raised RunExc.timeoutExpired) (by decide)⟩

/-- C3 counterexample: the claim says `run_script` never lets an exception
past the sandbox boundary and turns an interpreter-not-found condition into
a sentinel message.  In the code the only handler is
`except subprocess.TimeoutExpired`; a `FileNotFoundError` from launching
the child propagates to the caller uncaught, as this concrete evaluation
shows. -/
theorem c3_exception_propagates_counterexample :
    (run_script "/tmp/rca.py"
        (SubprocessOutcome.raised (RunExc.fileNotFound "python interpreter missing"))).result
      = Except.error (RunExc.fileNotFound "python interpreter missing") := by
  rfl

/-- C3 (amended): a completed child process always yields a textual result;
deadline exceedance is caught and converted into the fixed timeout sentinel;
but any exception other than `subprocess.TimeoutExpired` — including an
interpreter-not-found error at launch — propagates past the sandbox
boundary (there is no launch-failure sentinel in the code). -/
theorem c3_exception_policy (tmp_path : String) (proc : SubprocessOutcome) :
    ((∀ rc out err, proc = SubprocessOutcome.completed rc out err →
        ∃ s, (run_script tmp_path proc).result = Except.ok s)
     ∧ (proc = SubprocessOutcome.raised RunExc.timeoutExpired →
        (run_script tmp_path proc).result =
          Except.ok "[timeout] Script execution exceeded the configured timeout.")
     ∧ (∀ e, proc = SubprocessOutcome.raised e → e ≠ RunExc.timeoutExpired →
        (run_script tmp_path proc).result = Except.error e)) := by
  refine ⟨?_, ?_, ?_⟩
  · rintro rc out err rfl
    simp only [run_script]
    by_cases h1 : rc ≠ 0 ∧ out.getD "" = ""
    · exact ⟨pyStrip (err.getD ""), by simp [h1]⟩
    · by_cases h2 : pyStrip (err.getD "") ≠ ""
      · by_cases h3 : pyStrip (out.getD "") ≠ ""
        · exact ⟨pyStrip (out.getD "") ++ "\n[stderr]\n" ++ pyStrip (err.getD ""),
            by simp [h1, h2, h3]⟩
        · exact ⟨pyStrip (err.getD ""), by simp [h1, h2, h3]⟩
      · exact ⟨pyStrip (out.getD ""), by simp [h1, h2]⟩
  · rintro rfl
    rfl
  · rintro e rfl he
    cases e with
    | timeoutExpired => exact absurd rfl he
    | fileNotFound m => rfl
    | otherRunExc m => rfl

theorem c3_exception_policy_witness :
    (run_script "/tmp/rca.py"
        (SubprocessOutcome.raised (RunExc.fileNotFound "no python"))).result
      = Except.error (RunExc.fileNotFound "no python") :=
  (c3_exception_policy "/tmp/rca.py"
      (SubprocessOutcome.raised (RunExc.fileNotFound "no python"))).2.2
    (RunExc.fileNotFound "no python") rfl (by decide)

/-- C4: the output of `run_script` on a completed child follows the outcome
table (emptiness of a stream read as emptiness after trimming): exit 0
returns trimmed stdout, with trimmed stderr appended under a `[stderr]`
label when both are non-empty; non-zero exit with empty stdout returns
trimmed stderr (which coincides with trimmed stdout when stderr is empty
too); non-zero exit with non-empty stdout returns trimmed stdout, with the
labelled stderr section appended when stderr is non-empty; and the
`print('ok')` run (stdout `"ok\n"`, stderr empty, exit 0) yields output
starting with `ok`. -/
theorem c4_output_table (tmp_path stdoutS stderrS : String) (rc : Int) :
    ((rc = 0 → pyStrip stderrS = "" →
      (run_script tmp_path (SubprocessOutcome.completed rc (some stdoutS) (some stderrS))).result
        = Except.ok (pyStrip stdoutS))
     ∧ (rc = 0 → pyStrip stdoutS ≠ "" → pyStrip stderrS ≠ "" →
      (run_script tmp_path (SubprocessOutcome.completed rc (some stdoutS) (some stderrS))).result
        = Except.ok (pyStrip stdoutS ++ "\n[stderr]\n" ++ pyStrip stderrS))
     ∧ (rc ≠ 0 → pyStrip stdoutS = "" →
      (run_script tmp_path (SubprocessOutcome.completed rc (some stdoutS) (some stderrS))).result
        = Except.ok (pyStrip stderrS))
     ∧ (rc ≠ 0 → pyStrip stdoutS ≠ "" → pyStrip stderrS = "" →
      (run_script tmp_path (SubprocessOutcome.completed rc (some stdoutS) (some stderrS))).result
        = Except.ok (pyStrip stdoutS))
     ∧ (rc ≠ 0 → pyStrip stdoutS ≠ "" → pyStrip stderrS ≠ "" →
      (run_script tmp_path (SubprocessOutcome.completed rc (some stdoutS) (some stderrS))).result
        = Except.ok (pyStrip stdoutS ++ "\n[stderr]\n" ++ pyStrip stderrS))
     ∧ (∃ rest,
      (run_script tmp_path (SubprocessOutcome.completed 0 (some "ok\n") (some ""))).result
        = Except.ok ("ok" ++ rest))) := by
  have hraw : pyStrip stdoutS ≠ "" → stdoutS ≠ "" := by
    intro h hc
    exact h (pyStrip_eq_empty_of_eq_empty stdoutS hc)
  refine ⟨?_, ?_, ?_, ?_, ?_, ?_⟩
  · intro h0 herr
    simp [run_script, h0, herr]
  · intro h0 hout herr
    simp [run_script, h0, herr, hout]
  · intro hrc hout
    by_cases hre : stdoutS = ""
    · simp [run_script, hrc, hre]
    · by_cases herr : pyStrip stderrS ≠ ""
      · simp [run_script, hrc, hre, hout, herr]
      · have herr2 : pyStrip stderrS = "" := by
          by_contra hx
          exact herr hx
        simp [run_script, hrc, hre, hout, herr2]
  · intro hrc hout herr
    have hre : stdoutS ≠ "" := hraw hout
    simp [run_script, hrc, hre, hout, herr]
  · intro hrc hout herr
    have hre : stdoutS ≠ "" := hraw hout
    simp [run_script, hrc, hre, hout, herr]
  · refine ⟨"", ?_⟩
    rfl

theorem c4_output_table_witness :
    ((0 : Int) = 0 ∧ pyStrip "warning\n" ≠ "" ∧ pyStrip " ok \n" ≠ "") ∧
      (run_script "/tmp/rca.py"
          (SubprocessOutcome.completed 0 (some " ok \n") (some "warning\n"))).result
        = Except.ok (pyStrip " ok \n" ++ "\n[stderr]\n" ++ pyStrip "warning\n") :=
  ⟨⟨rfl, by decide, by decide⟩,
    (c4_output_table "/tmp/rca.py" " ok \n" "warning\n" 0).2.1 rfl (by decide) (by decide)⟩

/-! ## Chat agent: server/src/agent/langchat_agent.py -/

/-- The `ProviderEnum` of langchat_agent.py (lines 82-89): supported LLM
providers, with `claude` an alias for `anthropic`. -/
inductive ProviderEnum where
  | openai
  | anthropic
  | claude
  | ollama
  | fake
deriving DecidableEq, Repr

/-- The `.value` of each `ProviderEnum` member. -/
def ProviderEnum.value : ProviderEnum → String
  | ProviderEnum.openai => "openai"
  | ProviderEnum.anthropic => "anthropic"
  | ProviderEnum.claude => "claude"
  | ProviderEnum.ollama => "ollama"
  | ProviderEnum.fake => "fake"

/-- The members of `ProviderEnum` in declaration order (Python iterates an
Enum in declaration order, so this is `[p for p in ProviderEnum]`). -/
def providerMembers : List ProviderEnum :=
  [ProviderEnum.openai, ProviderEnum.anthropic, ProviderEnum.claude,
   ProviderEnum.ollama, ProviderEnum.fake]

/-- Model of the `ProviderEnum(value)` constructor call: the member whose
value equals the string, if any (`ValueError`, i.e. `none`, otherwise). -/
def providerOfValue (s : String) : Option ProviderEnum :=
  if s = "openai" then some ProviderEnum.openai
  else if s = "anthropic" then some ProviderEnum.anthropic
  else if s = "claude" then some ProviderEnum.claude
  else if s = "ollama" then some ProviderEnum.ollama
  else if s = "fake" then some ProviderEnum.fake
  else none

/-- Model of the Python expression `provider or ""` for an optional string
argument (`None` becomes the empty string). -/
def orEmpty : Option String → String
  | none => ""
  | some s => s

/-- Embedding of provider resolution in `LangChatAgent.__init__`
(langchat_agent.py lines 124-149): normalize with `.lower().strip()`,
treat an empty identifier as `"fake"`, resolve the `claude` alias to
`ANTHROPIC`, look the identifier up in `ProviderEnum`, and on lookup
failure raise `ValueError` with a message enumerating the valid choices
(`', '.join(p.value for p in ProviderEnum)`). -/
def agentInit (provider : Option String) : Except String ProviderEnum :=
  let normalized0 := pyStrip (pyLower (orEmpty provider))
  let normalized := if normalized0 = "" then "fake" else normalized0
  if normalized = "claude" then
    Except.ok ProviderEnum.anthropic
  else
    match providerOfValue normalized with
    | some p => Except.ok p
    | none =>
      Except.error ("Invalid provider '" ++ orEmpty provider ++ "'. Valid options: "
        ++ String.intercalate ", " (providerMembers.map ProviderEnum.value))

/-- Python exception values that can flow through `chat`: the built-in
exception classes the handlers at lines 235-248 discriminate on, plus the
custom exception classes of the module; each carries its `str(e)` text. -/
inductive PyExc where
  | importError : String → PyExc
  | keyError : String → PyExc
  | typeError : String → PyExc
  | valueError : String → PyExc
  | modelProviderError : String → PyExc
  | agentConfigError : String → PyExc
  | sessionHistoryError : String → PyExc
  | otherExc : String → PyExc
deriving DecidableEq, Repr

/-- The `str(e)` of a modelled Python exception. -/
def pyMsg : PyExc → String
  | PyExc.importError m => m
  | PyExc.keyError m => m
  | PyExc.typeError m => m
  | PyExc.valueError m => m
  | PyExc.modelProviderError m => m
  | PyExc.agentConfigError m => m
  | PyExc.sessionHistoryError m => m
  | PyExc.otherExc m => m

/-- A Turn role: who spoke a message in a session history. -/
inductive Role where
  | user
  | assistant
deriving DecidableEq, Repr

/-- One history entry: `add_user_message` appends a user Turn,
`add_ai_message` an assistant Turn. -/
structure Turn where
  role : Role
  text : String
deriving DecidableEq, Repr

/-- Lookup in the `self._histories` dictionary (first entry with the key;
Python dict keys are unique, modelled here by `wfStore` below). -/
def findHist : List (String × List Turn) → String → Option (List Turn)
  | [], _ => none
  | (k, h) :: rest, sid => if k = sid then some h else findHist rest sid

/-- Embedding of `LangChatAgent._get_or_create_history` (lines 250-269):
return the session's history, creating an empty one (inserted at the end,
as Python dict insertion does) when the key is absent. -/
def getOrCreateHistory (histories : List (String × List Turn)) (session_id : String) :
    List Turn × List (String × List Turn) :=
  match findHist histories session_id with
  | some h => (h, histories)
  | none => ([], histories ++ [(session_id, [])])

/-- Appending a Turn to the history object stored under `session_id`
(the Python code mutates the `InMemoryChatMessageHistory` aliased in the
dictionary; here the store entry is updated in place). -/
def appendTurn : List (String × List Turn) → String → Turn → List (String × List Turn)
  | [], _, _ => []
  | (k, h) :: rest, sid, t =>
    if k = sid then (k, h ++ [t]) :: rest else (k, h) :: appendTurn rest sid t

/-- The `except` clauses of `chat` (langchat_agent.py lines 235-248):
`ImportError` → `ModelProviderError` naming the provider; `KeyError` /
`TypeError` → `AgentConfigError`; any other exception →
`ModelProviderError` wrapping `str(e)`. -/
def chatExceptHandlers (provider : ProviderEnum) : PyExc → PyExc
  | PyExc.importError m =>
    PyExc.modelProviderError ("Provider '" ++ provider.value ++ "' not available: " ++ m)
  | PyExc.keyError m =>
    PyExc.agentConfigError ("Invalid agent configuration: " ++ m)
  | PyExc.typeError m =>
    PyExc.agentConfigError ("Invalid agent configuration: " ++ m)
  | e =>
    PyExc.modelProviderError ("Error processing message: " ++ pyMsg e)

/-- The response-producing part of `chat`'s `try` block (lines 196-227):
for the fake provider, the direct echo string; otherwise the chain
invocation, whose own `except Exception` handler (lines 217-222) wraps
every exception in `ModelProviderError("Failed to process message: ...")`.
Then `str(result) if result is not None else ""` and the empty-response
check (lines 224-227). -/
def chatResponse (provider : ProviderEnum) (message : String)
    (chainInvoke : Except PyExc (Option String)) : Except PyExc String :=
  let invokeStep : Except PyExc (Option String) :=
    if provider = ProviderEnum.fake then
      Except.ok (some ("[provider=fake][echo] " ++ message))
    else
      match chainInvoke with
      | Except.ok r => Except.ok r
      | Except.error e =>
        Except.error (PyExc.modelProviderError ("Failed to process message: " ++ pyMsg e))
  match invokeStep with
  | Except.error e => Except.error e
  | Except.ok result =>
    let response := result.getD ""
    if response = "" then
      Except.error (PyExc.modelProviderError "Model returned empty response")
    else
      Except.ok response

/-- Embedding of `LangChatAgent.chat` (lines 159-248).  `chainInvoke` is
what `chain.invoke` would do for a non-fake provider (the child
computation is a parameter of the embedding; for the fake provider it is
ignored, as the code short-circuits before the chain).  Returns the
Python-level result — `Except.error` is a raised exception — together
with the histories dictionary after the call. -/
def chat (provider : ProviderEnum) (message session_id : String)
    (histories : List (String × List Turn))
    (chainInvoke : Except PyExc (Option String)) :
    Except PyExc String × List (String × List Turn) :=
  if message = "" then
    (Except.error (PyExc.valueError "Message must be a non-empty string"), histories)
  else if session_id = "" then
    (Except.error (PyExc.valueError "Session ID must be a non-empty string"), histories)
  else
    -- history = self._get_or_create_history(session_id)
    let st1 := (getOrCreateHistory histories session_id).2
    -- history.add_user_message(message)
    let st2 := appendTurn st1 session_id { role := Role.user, text := message }
    -- fake echo / chain.invoke, str(result), empty-response check
    match chatResponse provider message chainInvoke with
    | Except.error e =>
      -- a raised exception runs through the outer except clauses
      (Except.error (chatExceptHandlers provider e), st2)
    | Except.ok response =>
      -- history.add_ai_message(response); return response
      (Except.ok response,
        appendTurn st2 session_id { role := Role.assistant, text := response })

/-! ## Session-store lemmas -/

theorem findHist_append_absent (st : List (String × List Turn)) (sid : String)
    (l : List Turn) (h : findHist st sid = none) :
    findHist (st ++ [(sid, l)]) sid = some l := by
  induction st with
  | nil => simp [findHist]
  | cons p rest ih =>
    obtain ⟨k, hh⟩ := p
    by_cases hk : k = sid
    · simp [findHist, hk] at h
    · simp only [findHist, hk, if_false, List.cons_append, if_neg hk] at h ⊢
      exact ih h

theorem findHist_appendTurn_self (st : List (String × List Turn)) (sid : String)
    (t : Turn) (l : List Turn) (h : findHist st sid = some l) :
    findHist (appendTurn st sid t) sid = some (l ++ [t]) := by
  induction st with
  | nil => simp [findHist] at h
  | cons p rest ih =>
    obtain ⟨k, hh⟩ := p
    by_cases hk : k = sid
    · simp only [findHist, if_pos hk, Option.some.injEq] at h
      simp only [appendTurn, if_pos hk, findHist, h]
    · simp only [findHist, if_neg hk] at h
      simp only [appendTurn, if_neg hk, findHist, if_neg hk]
      exact ih h

theorem findHist_appendTurn_ne (st : List (String × List Turn)) (sid k : String)
    (t : Turn) (h : k ≠ sid) :
    findHist (appendTurn st sid t) k = findHist st k := by
  induction st with
  | nil => simp [appendTurn]
  | cons p rest ih =>
    obtain ⟨k0, hh⟩ := p
    by_cases hk : k0 = sid
    · subst hk
      simp only [appendTurn, if_pos rfl, findHist]
      rw [if_neg (fun he => h he.symm), if_neg (fun he => h he.symm)]
    · simp only [appendTurn, if_neg hk, findHist]
      by_cases hkk : k0 = k
      · rw [if_pos hkk, if_pos hkk]
      · rw [if_neg hkk, if_neg hkk]
        exact ih

theorem findHist_getOrCreate_self (st : List (String × List Turn)) (sid : String) :
    findHist (getOrCreateHistory st sid).2 sid = some ((findHist st sid).getD []) := by
  unfold getOrCreateHistory
  cases hf : findHist st sid with
  | none => simpa using findHist_append_absent st sid [] hf
  | some l => simpa using hf

theorem findHist_getOrCreate_ne (st : List (String × List Turn)) (sid k : String)
    (h : k ≠ sid) :
    findHist (getOrCreateHistory st sid).2 k = findHist st k := by
  unfold getOrCreateHistory
  cases hf : findHist st sid with
  | none =>
    simp only []
    induction st with
    | nil => simp [findHist, Ne.symm h]
    | cons p rest ih =>
      obtain ⟨k0, hh⟩ := p
      simp only [findHist] at hf ⊢
      by_cases hkk : k0 = k
      · simp [List.cons_append, findHist, hkk]
      · simp only [List.cons_append, findHist, if_neg hkk]
        by_cases hks : k0 = sid
        · simp [hks] at hf
        · rw [if_neg hks] at hf
          exact ih hf
  | some l => rfl

/-- The key after the user Turn has been appended in `chat`: the prior
history (empty when the session is new) followed by the user Turn. -/
theorem findHist_after_user (st : List (String × List Turn)) (sid : String) (t : Turn) :
    findHist (appendTurn (getOrCreateHistory st sid).2 sid t) sid =
      some (((findHist st sid).getD []) ++ [t]) :=
  findHist_appendTurn_self _ sid t _ (findHist_getOrCreate_self st sid)

/-- The number of entries a key has in the store (a Python dict has
exactly one; `wfStore` states that invariant). -/
def countKey (st : List (String × List Turn)) (sid : String) : Nat :=
  st.countP (fun p => decide (p.1 = sid))

/-- Well-formedness of the modelled dictionary: every key occurs at most
once. -/
def wfStore (st : List (String × List Turn)) : Prop :=
  ∀ k, countKey st k ≤ 1

theorem countKey_appendTurn (st : List (String × List Turn)) (sid k : String) (t : Turn) :
    countKey (appendTurn st sid t) k = countKey st k := by
  induction st with
  | nil => rfl
  | cons p rest ih =>
    obtain ⟨k0, hh⟩ := p
    by_cases hk : k0 = sid
    · simp [appendTurn, hk, countKey, List.countP_cons]
    · simp only [appendTurn, if_neg hk, countKey, List.countP_cons] at ih ⊢
      omega

theorem countKey_append (st st2 : List (String × List Turn)) (k : String) :
    countKey (st ++ st2) k = countKey st k + countKey st2 k := by
  simp [countKey, List.countP_append]

theorem findHist_none_countKey (st : List (String × List Turn)) (sid : String)
    (h : findHist st sid = none) : countKey st sid = 0 := by
  induction st with
  | nil => rfl
  | cons p rest ih =>
    obtain ⟨k0, hh⟩ := p
    by_cases hk : k0 = sid
    · simp [findHist, hk] at h
    · simp only [findHist, if_neg hk] at h
      simp only [countKey, List.countP_cons] at ih ⊢
      simp [hk, ih h]

theorem findHist_some_countKey (st : List (String × List Turn)) (sid : String)
    (l : List Turn) (h : findHist st sid = some l) : 1 ≤ countKey st sid := by
  induction st with
  | nil => simp [findHist] at h
  | cons p rest ih =>
    obtain ⟨k0, hh⟩ := p
    simp only [countKey, List.countP_cons]
    by_cases hk : k0 = sid
    · simp [hk]
    · simp only [findHist, if_neg hk] at h
      have := ih h
      simp only [countKey] at this
      omega

theorem countKey_getOrCreate_self (st : List (String × List Turn)) (sid : String)
    (hwf : wfStore st) : countKey (getOrCreateHistory st sid).2 sid = 1 := by
  unfold getOrCreateHistory
  cases hf : findHist st sid with
  | none =>
    have h0 := findHist_none_countKey st sid hf
    simp only []
    rw [countKey_append, h0]
    simp [countKey, List.countP_cons]
  | some l =>
    have h1 := findHist_some_countKey st sid l hf
    have h2 := hwf sid
    simp only []
    omega

theorem wf_getOrCreate (st : List (String × List Turn)) (sid : String)
    (hwf : wfStore st) : wfStore (getOrCreateHistory st sid).2 := by
  intro k
  unfold getOrCreateHistory
  cases hf : findHist st sid with
  | none =>
    simp only []
    rw [countKey_append]
    by_cases hk : k = sid
    · subst hk
      rw [findHist_none_countKey st k hf]
      simp [countKey, List.countP_cons]
    · have : countKey [(sid, ([] : List Turn))] k = 0 := by
        simp [countKey, List.countP_cons, Ne.symm hk]
      rw [this]
      simpa using hwf k
  | some l => exact hwf k

theorem wf_appendTurn (st : List (String × List Turn)) (sid : String) (t : Turn)
    (hwf : wfStore st) : wfStore (appendTurn st sid t) := by
  intro k
  rw [countKey_appendTurn]
  exact hwf k

/-! ## More string facts and chat characterization lemmas -/

theorem string_append_empty (s : String) : s ++ "" = s := by
  obtain ⟨l⟩ := s
  show String.mk (l ++ []) = String.mk l
  rw [List.append_nil]

theorem string_append_assoc (a b c : String) : (a ++ b) ++ c = a ++ (b ++ c) := by
  obtain ⟨la⟩ := a
  obtain ⟨lb⟩ := b
  obtain ⟨lc⟩ := c
  show String.mk ((la ++ lb) ++ lc) = String.mk (la ++ (lb ++ lc))
  rw [List.append_assoc]

/-- For the fake provider the chain is bypassed: the response is the
deterministic echo string, which is never empty, so the empty-response
check passes. -/
theorem chatResponse_fake (message : String) (chainInvoke : Except PyExc (Option String)) :
    chatResponse ProviderEnum.fake message chainInvoke =
      Except.ok ("[provider=fake][echo] " ++ message) := by
  have hne : ("[provider=fake][echo] " ++ message) ≠ "" :=
    string_append_ne_empty_left _ _ (by decide)
  simp [chatResponse, hne]

theorem chatResponse_nonfake_error (provider : ProviderEnum) (message : String)
    (e : PyExc) (h : provider ≠ ProviderEnum.fake) :
    chatResponse provider message (Except.error e) =
      Except.error (PyExc.modelProviderError ("Failed to process message: " ++ pyMsg e)) := by
  simp [chatResponse, h]

theorem chatResponse_nonfake_ok (provider : ProviderEnum) (message : String)
    (r : Option String) (h : provider ≠ ProviderEnum.fake) :
    chatResponse provider message (Except.ok r) =
      if r.getD "" = "" then
        Except.error (PyExc.modelProviderError "Model returned empty response")
      else Except.ok (r.getD "") := by
  by_cases hr : r.getD "" = ""
  · simp [chatResponse, h, hr]
  · simp [chatResponse, h, hr]

/-- Unfolding of `chat` once both validations pass: the user Turn is
appended first; then the response computation decides whether the call
raises (reclassified by the handlers, history keeping only the user Turn)
or succeeds (assistant Turn appended as well). -/
theorem chat_valid (provider : ProviderEnum) (message session_id : String)
    (histories : List (String × List Turn)) (chainInvoke : Except PyExc (Option String))
    (hm : message ≠ "") (hs : session_id ≠ "") :
    chat provider message session_id histories chainInvoke =
      match chatResponse provider message chainInvoke with
      | Except.error e =>
        (Except.error (chatExceptHandlers provider e),
         appendTurn (getOrCreateHistory histories session_id).2 session_id
           { role := Role.user, text := message })
      | Except.ok response =>
        (Except.ok response,
         appendTurn (appendTurn (getOrCreateHistory histories session_id).2 session_id
             { role := Role.user, text := message }) session_id
           { role := Role.assistant, text := response }) := by
  simp [chat, hm, hs]

/-! ## Claims C1, C5, C10 -/

/-- C1: an empty message or session id fails with `ValueError`
(`InvalidArgument`) and leaves every history untouched; once validation
passes, a successful call appends exactly the pair user Turn then
assistant Turn to the session's history, and a failed invocation leaves
exactly the user Turn appended (so the user Turn goes in before the
backend is invoked and the assistant Turn only on success). -/
theorem c1_chat_validation_and_history_discipline (provider : ProviderEnum)
    (message session_id : String) (histories : List (String × List Turn))
    (chainInvoke : Except PyExc (Option String)) :
    ((message = "" →
        chat provider message session_id histories chainInvoke =
          (Except.error (PyExc.valueError "Message must be a non-empty string"), histories))
     ∧ (message ≠ "" → session_id = "" →
        chat provider message session_id histories chainInvoke =
          (Except.error (PyExc.valueError "Session ID must be a non-empty string"), histories))
     ∧ (message ≠ "" → session_id ≠ "" →
        (∀ resp, (chat provider message session_id histories chainInvoke).1 = Except.ok resp →
          findHist (chat provider message session_id histories chainInvoke).2 session_id =
            some (((findHist histories session_id).getD []) ++
              [{ role := Role.user, text := message },
               { role := Role.assistant, text := resp }]))
        ∧ (∀ e, (chat provider message session_id histories chainInvoke).1 = Except.error e →
          findHist (chat provider message session_id histories chainInvoke).2 session_id =
            some (((findHist histories session_id).getD []) ++
              [{ role := Role.user, text := message }])))) := by
  refine ⟨?_, ?_, ?_⟩
  · intro hm
    simp [chat, hm]
  · intro hm hs
    simp [chat, hm, hs]
  · intro hm hs
    rw [chat_valid provider message session_id histories chainInvoke hm hs]
    cases hr : chatResponse provider message chainInvoke with
    | error e =>
      refine ⟨?_, ?_⟩
      · intro resp hresp
        simp at hresp
      · intro e2 _
        exact findHist_after_user histories session_id _
    | ok response =>
      refine ⟨?_, ?_⟩
      · intro resp hresp
        simp only [Except.ok.injEq] at hresp
        subst hresp
        rw [findHist_appendTurn_self _ session_id _ _
          (findHist_after_user histories session_id _)]
        simp [List.append_assoc]
      · intro e2 he2
        simp at he2

theorem c1_chat_validation_and_history_discipline_witness :
    (("hi" : String) ≠ "" ∧ ("s1" : String) ≠ "") ∧
      (∀ resp,
        (chat ProviderEnum.fake "hi" "s1" [] (Except.ok none)).1 = Except.ok resp →
        findHist (chat ProviderEnum.fake "hi" "s1" [] (Except.ok none)).2 "s1" =
          some (((findHist [] "s1").getD []) ++
            [{ role := Role.user, text := "hi" },
             { role := Role.assistant, text := resp }])) ∧
      (∀ e, (chat ProviderEnum.fake "hi" "s1" [] (Except.ok none)).1 = Except.error e →
        findHist (chat ProviderEnum.fake "hi" "s1" [] (Except.ok none)).2 "s1" =
          some (((findHist [] "s1").getD []) ++ [{ role := Role.user, text := "hi" }])) :=
  ⟨⟨by decide, by decide⟩,
    (c1_chat_validation_and_history_discipline ProviderEnum.fake "hi" "s1" []
      (Except.ok none)).2.2 (by decide) (by decide)⟩

/-- C5: a non-empty provider identifier that, after lower-casing and
trimming, is none of the recognized values fails at construction with a
`ValueError` (`InvalidConfiguration`) whose message enumerates the valid
provider choices; no provider is ever returned for it (no silent fallback
and nothing provider-backed is ever constructed), and the `claude` alias
resolves to `anthropic`. -/
theorem c5_invalid_provider_fails_fast (provider : String)
    (h1 : pyStrip (pyLower provider) ≠ "")
    (h2 : ∀ v ∈ providerMembers.map ProviderEnum.value, pyStrip (pyLower provider) ≠ v) :
    (agentInit (some provider) =
      Except.error ("Invalid provider '" ++ provider ++
        "'. Valid options: openai, anthropic, claude, ollama, fake"))
    ∧ (∀ p, agentInit (some provider) ≠ Except.ok p)
    ∧ (∀ q : String, pyStrip (pyLower q) = "claude" →
        agentInit (some q) = Except.ok ProviderEnum.anthropic) := by
  have ho : pyStrip (pyLower provider) ≠ "openai" := h2 _ (by decide)
  have ha : pyStrip (pyLower provider) ≠ "anthropic" := h2 _ (by decide)
  have hc : pyStrip (pyLower provider) ≠ "claude" := h2 _ (by decide)
  have hl : pyStrip (pyLower provider) ≠ "ollama" := h2 _ (by decide)
  have hf : pyStrip (pyLower provider) ≠ "fake" := h2 _ (by decide)
  have hmain : agentInit (some provider) =
      Except.error ("Invalid provider '" ++ provider ++
        "'. Valid options: openai, anthropic, claude, ollama, fake") := by
    have hjoin : String.intercalate ", " (providerMembers.map ProviderEnum.value)
        = "openai, anthropic, claude, ollama, fake" := by decide
    simp only [agentInit, orEmpty, providerOfValue, if_neg h1, if_neg ho, if_neg ha,
      if_neg hc, if_neg hl, if_neg hf, hjoin]
    rw [string_append_assoc]
    rfl
  refine ⟨hmain, ?_, ?_⟩
  · intro p hp
    rw [hmain] at hp
    exact Except.noConfusion hp
  · intro q hq
    have : ("claude" : String) ≠ "" := by decide
    simp [agentInit, orEmpty, hq, this]

theorem c5_invalid_provider_fails_fast_witness :
    (pyStrip (pyLower "bogus") ≠ "" ∧
      ∀ v ∈ providerMembers.map ProviderEnum.value, pyStrip (pyLower "bogus") ≠ v) ∧
      agentInit (some "bogus") =
        Except.error ("Invalid provider '" ++ "bogus" ++
          "'. Valid options: openai, anthropic, claude, ollama, fake") :=
  ⟨⟨by decide, by decide⟩,
    (c5_invalid_provider_fails_fast "bogus" (by decide) (by decide)).1⟩

/-- C10: a provider argument that is `None`, empty, or whitespace-only
normalizes to the empty identifier, which is treated as unset: the agent
is constructed with the fake provider and no error is raised. -/
theorem c10_empty_provider_defaults_to_fake (provider : Option String)
    (h : pyStrip (pyLower (orEmpty provider)) = "") :
    agentInit provider = Except.ok ProviderEnum.fake := by
  simp [agentInit, h, providerOfValue]

theorem c10_empty_provider_defaults_to_fake_witness :
    (pyStrip (pyLower (orEmpty none)) = "" ∧
      pyStrip (pyLower (orEmpty (some "   "))) = "") ∧
      agentInit none = Except.ok ProviderEnum.fake ∧
      agentInit (some "   ") = Except.ok ProviderEnum.fake :=
  ⟨⟨by decide, by decide⟩,
    c10_empty_provider_defaults_to_fake none (by decide),
    c10_empty_provider_defaults_to_fake (some "   ") (by decide)⟩

/-! ## Claims C6, C7, C8, C9 -/

/-- C6 evaluation at the failing inputs: for a non-fake provider, a chain
invocation that raises `KeyError`, `TypeError` or `ImportError` always
surfaces from `chat` as `ModelProviderError` — the inner handler at lines
217-222 wraps every invocation exception in
`ModelProviderError("Failed to process message: ...")`, so the outer
`except ImportError` and `except (KeyError, TypeError)` clauses (whose
mapping to `AgentConfigError` the last two conjuncts exhibit) never see
the original exception type.  In particular `chat` never raises
`AgentConfigError` for a key/type error in the chain wiring, contrary to
its own docstring and the reclassification table. -/
theorem c6_invoke_errors_all_surface_as_model_provider_error (provider : ProviderEnum)
    (message session_id m : String) (histories : List (String × List Turn))
    (hm : message ≠ "") (hs : session_id ≠ "") (hp : provider ≠ ProviderEnum.fake) :
    ((chat provider message session_id histories
        (Except.error (PyExc.keyError m))).1 =
      Except.error (PyExc.modelProviderError
        ("Error processing message: Failed to process message: " ++ m)))
    ∧ ((chat provider message session_id histories
        (Except.error (PyExc.typeError m))).1 =
      Except.error (PyExc.modelProviderError
        ("Error processing message: Failed to process message: " ++ m)))
    ∧ ((chat provider message session_id histories
        (Except.error (PyExc.importError m))).1 =
      Except.error (PyExc.modelProviderError
        ("Error processing message: Failed to process message: " ++ m)))
    ∧ chatExceptHandlers provider (PyExc.keyError m) =
        PyExc.agentConfigError ("Invalid agent configuration: " ++ m)
    ∧ chatExceptHandlers provider (PyExc.typeError m) =
        PyExc.agentConfigError ("Invalid agent configuration: " ++ m) := by
  have key : ∀ e : PyExc,
      (chat provider message session_id histories (Except.error e)).1 =
        Except.error (PyExc.modelProviderError
          ("Error processing message: " ++ ("Failed to process message: " ++ pyMsg e))) := by
    intro e
    rw [chat_valid provider message session_id histories (Except.error e) hm hs,
      chatResponse_nonfake_error provider message e hp]
    rfl
  refine ⟨?_, ?_, ?_, rfl, rfl⟩
  · rw [key (PyExc.keyError m), ← string_append_assoc]
    rfl
  · rw [key (PyExc.typeError m), ← string_append_assoc]
    rfl
  · rw [key (PyExc.importError m), ← string_append_assoc]
    rfl

theorem c6_invoke_errors_witness :
    (("hi" : String) ≠ "" ∧ ("s1" : String) ≠ "" ∧
      ProviderEnum.openai ≠ ProviderEnum.fake) ∧
      (chat ProviderEnum.openai "hi" "s1" []
          (Except.error (PyExc.keyError "'input'"))).1 =
        Except.error (PyExc.modelProviderError
          ("Error processing message: Failed to process message: " ++ "'input'")) :=
  ⟨⟨by decide, by decide, by decide⟩,
    (c6_invoke_errors_all_surface_as_model_provider_error ProviderEnum.openai
      "hi" "s1" "'input'" [] (by decide) (by decide) (by decide)).1⟩

/-- C7 counterexample: the claim says a blank (whitespace-only) backend
response makes the call fail with no assistant Turn appended.  The code
only checks `if not response`, which is false for `" "`: the call
succeeds, returns the blank string and appends it as the assistant
Turn. -/
theorem c7_blank_response_succeeds_counterexample :
    chat ProviderEnum.openai "hi" "s1" [] (Except.ok (some " ")) =
      (Except.ok " ",
       [("s1", [{ role := Role.user, text := "hi" },
                { role := Role.assistant, text := " " }])]) := by
  decide

/-- C7 (amended): an empty response from the backend (`None`, or a string
that is empty — but not merely whitespace) fails with
`ModelProviderError` whose message mentions the empty response, and no
assistant Turn is appended; a whitespace-only non-empty response is
returned as a success. -/
theorem c7_empty_response_is_error (provider : ProviderEnum)
    (message session_id : String) (histories : List (String × List Turn))
    (result : Option String)
    (hm : message ≠ "") (hs : session_id ≠ "") (hp : provider ≠ ProviderEnum.fake)
    (hr : result.getD "" = "") :
    ((chat provider message session_id histories (Except.ok result)).1 =
        Except.error (PyExc.modelProviderError
          "Error processing message: Model returned empty response"))
    ∧ (∃ a b, ("Error processing message: Model returned empty response" : String)
        = a ++ ("empty response" ++ b))
    ∧ findHist (chat provider message session_id histories (Except.ok result)).2 session_id =
        some (((findHist histories session_id).getD []) ++
          [{ role := Role.user, text := message }]) := by
  have hcr : chatResponse provider message (Except.ok result) =
      Except.error (PyExc.modelProviderError "Model returned empty response") := by
    rw [chatResponse_nonfake_ok provider message result hp, if_pos hr]
  rw [chat_valid provider message session_id histories (Except.ok result) hm hs, hcr]
  refine ⟨rfl, ⟨"Error processing message: Model returned ", "", ?_⟩,
    findHist_after_user histories session_id _⟩
  rw [string_append_empty]
  rfl

theorem c7_empty_response_is_error_witness :
    (("hi" : String) ≠ "" ∧ ("s1" : String) ≠ "" ∧
      ProviderEnum.openai ≠ ProviderEnum.fake ∧ (Option.getD (some "") "") = "") ∧
      (chat ProviderEnum.openai "hi" "s1" [] (Except.ok (some ""))).1 =
        Except.error (PyExc.modelProviderError
          "Error processing message: Model returned empty response") :=
  ⟨⟨by decide, by decide, by decide, by decide⟩,
    (c7_empty_response_is_error ProviderEnum.openai "hi" "s1" [] (some "")
      (by decide) (by decide) (by decide) (by decide)).1⟩

/-- C8: with the fake provider and non-empty message and session id,
`chat` succeeds deterministically with exactly
`"[provider=fake][echo] " ++ message`; that response contains the literal
fake-provider marker and the original message text as substrings; and the
whole call is independent of what the chain invocation would have done
(no external call is consulted). -/
theorem c8_fake_provider_deterministic_echo (message session_id : String)
    (histories : List (String × List Turn))
    (chainInvoke chainInvoke2 : Except PyExc (Option String))
    (hm : message ≠ "") (hs : session_id ≠ "") :
    ((chat ProviderEnum.fake message session_id histories chainInvoke).1 =
        Except.ok ("[provider=fake][echo] " ++ message))
    ∧ (∃ a b, "[provider=fake][echo] " ++ message = a ++ ("[provider=fake]" ++ b))
    ∧ (∃ a b, "[provider=fake][echo] " ++ message = a ++ (message ++ b))
    ∧ chat ProviderEnum.fake message session_id histories chainInvoke =
        chat ProviderEnum.fake message session_id histories chainInvoke2 := by
  refine ⟨?_, ⟨"", "[echo] " ++ message, ?_⟩,
    ⟨"[provider=fake][echo] ", "", ?_⟩, ?_⟩
  · rw [chat_valid ProviderEnum.fake message session_id histories chainInvoke hm hs,
      chatResponse_fake message chainInvoke]
  · rw [← string_append_assoc]
    rfl
  · rw [string_append_empty]
  · rw [chat_valid ProviderEnum.fake message session_id histories chainInvoke hm hs,
      chat_valid ProviderEnum.fake message session_id histories chainInvoke2 hm hs,
      chatResponse_fake message chainInvoke, chatResponse_fake message chainInvoke2]

theorem c8_fake_provider_deterministic_echo_witness :
    (("Ping" : String) ≠ "" ∧ ("abc" : String) ≠ "") ∧
      (chat ProviderEnum.fake "Ping" "abc" [] (Except.ok none)).1 =
        Except.ok ("[provider=fake][echo] " ++ "Ping") :=
  ⟨⟨by decide, by decide⟩,
    (c8_fake_provider_deterministic_echo "Ping" "abc" [] (Except.ok none)
      (Except.error (PyExc.otherExc "network down")) (by decide) (by decide)).1⟩

/-- C9: a chat call for one session never changes what any other session
id maps to; looking a session up when it already exists returns the
stored history and leaves the store unchanged (so repeated lookups yield
the same single history, created at most once); under the dictionary
invariant the store holds exactly one entry for the looked-up id, and
`chat` preserves that invariant. -/
theorem c9_session_isolation_and_uniqueness (provider : ProviderEnum)
    (message session_id other : String) (histories : List (String × List Turn))
    (chainInvoke : Except PyExc (Option String)) (hne : other ≠ session_id) :
    (findHist (chat provider message session_id histories chainInvoke).2 other =
        findHist histories other)
    ∧ (∀ l, findHist histories session_id = some l →
        getOrCreateHistory histories session_id = (l, histories))
    ∧ (getOrCreateHistory (getOrCreateHistory histories session_id).2 session_id =
        ((getOrCreateHistory histories session_id).1,
         (getOrCreateHistory histories session_id).2))
    ∧ (wfStore histories →
        countKey (getOrCreateHistory histories session_id).2 session_id = 1)
    ∧ (wfStore histories →
        wfStore (chat provider message session_id histories chainInvoke).2) := by
  refine ⟨?_, ?_, ?_, ?_, ?_⟩
  · by_cases hm : message = ""
    · simp [chat, hm]
    · by_cases hs : session_id = ""
      · simp [chat, hm, hs]
      · rw [chat_valid provider message session_id histories chainInvoke hm hs]
        cases hr : chatResponse provider message chainInvoke with
        | error e =>
          rw [findHist_appendTurn_ne _ session_id other _ hne,
            findHist_getOrCreate_ne histories session_id other hne]
        | ok response =>
          rw [findHist_appendTurn_ne _ session_id other _ hne,
            findHist_appendTurn_ne _ session_id other _ hne,
            findHist_getOrCreate_ne histories session_id other hne]
  · intro l hl
    simp [getOrCreateHistory, hl]
  · cases hf : findHist histories session_id with
    | some l => simp [getOrCreateHistory, hf]
    | none =>
      have h2 := findHist_append_absent histories session_id [] hf
      simp [getOrCreateHistory, hf, h2]
  · intro hwf
    exact countKey_getOrCreate_self histories session_id hwf
  · intro hwf
    by_cases hm : message = ""
    · simpa [chat, hm] using hwf
    · by_cases hs : session_id = ""
      · simpa [chat, hm, hs] using hwf
      · rw [chat_valid provider message session_id histories chainInvoke hm hs]
        cases hr : chatResponse provider message chainInvoke with
        | error e =>
          exact wf_appendTurn _ _ _ (wf_getOrCreate _ _ hwf)
        | ok response =>
          exact wf_appendTurn _ _ _ (wf_appendTurn _ _ _ (wf_getOrCreate _ _ hwf))

theorem c9_session_isolation_and_uniqueness_witness :
    (("other" : String) ≠ "s1") ∧
      findHist (chat ProviderEnum.fake "hi" "s1"
          [("other", [{ role := Role.user, text := "old" }])] (Except.ok none)).2 "other" =
        findHist [("other", [{ role := Role.user, text := "old" }])] "other" :=
  ⟨by decide,
    (c9_session_isolation_and_uniqueness ProviderEnum.fake "hi" "s1" "other"
      [("other", [{ role := Role.user, text := "old" }])] (Except.ok none) (by decide)).1⟩

end Rca
